import Mathlib

/-!
Shallow embedding of the `kata_sweet` sweet-shop application.

The durable state is a Postgres database (Supabase) declared in
`supabase/migrations/20251102131754_*.sql`: tables `profiles`,
`user_roles`, `sweets`, `purchases`, the `has_role` predicate, the
`handle_new_user` provisioning trigger, and row-level security (RLS)
policies on every table.  The client flows live in
`src/pages/Dashboard.tsx` (`handlePurchase`) and in the admin panel
component (`handleAdd`/`handleEdit`/`handleDelete`/`handleRestock`).

Modelling conventions:
* UUIDs become `Nat` identifiers; server-generated surrogate keys that
  nothing reads (`user_roles.id`, `purchases.id`) and the
  `created_at`/`updated_at` timestamp columns are omitted.
* `DECIMAL(10,2)` money is a fixed-point integer number of cents (`Int`).
* Each SQL statement is a total Lean function on a `DB` value; a
  statement that raises an error (CHECK violation, PK/UNIQUE violation,
  RLS `WITH CHECK` rejection, FK violation) returns `Except.error ()`
  and, as in a Postgres transaction, leaves the state unchanged.
* Postgres RLS semantics: for SELECT/UPDATE/DELETE the `USING`
  expression silently filters the rows the statement sees, so an UPDATE
  or DELETE whose `USING` clause rejects every row succeeds while
  touching nothing; an INSERT whose `WITH CHECK` expression is false
  raises an error.
* The client talks to the database over the network; a request that
  fails in transit is modelled by the `NetEnv` failure flags.
-/

namespace KataSweet

/-- `CREATE TYPE public.app_role AS ENUM ('admin', 'user')`. -/
inductive AppRole where
  | admin
  | user
deriving DecidableEq, Repr

/-- A row of `public.profiles` (id UUID PK references auth.users,
email TEXT NOT NULL, full_name TEXT; timestamps omitted). -/
structure ProfileRow where
  id : Nat
  email : String
  full_name : String
deriving DecidableEq, Repr

/-- A row of `public.user_roles` (user_id UUID references auth.users,
role app_role, UNIQUE(user_id, role); surrogate id omitted). -/
structure RoleRow where
  user_id : Nat
  role : AppRole
deriving DecidableEq, Repr

/-- A row of `public.sweets`, matching the `Sweet` interface of the
client (id, name, category, price, quantity, description, image_url). -/
structure Sweet where
  id : Nat
  name : String
  category : String
  price : Int
  quantity : Int
  description : Option String
  image_url : Option String
deriving DecidableEq, Repr

/-- A row of `public.purchases` (user_id, sweet_id, quantity,
total_price; surrogate id and created_at omitted). -/
structure PurchaseRow where
  user_id : Nat
  sweet_id : Nat
  quantity : Int
  total_price : Int
deriving DecidableEq, Repr

/-- The database state: `auth.users` (modelled as the list of identity
ids) plus the four public tables. -/
structure DB where
  users : List Nat
  profiles : List ProfileRow
  user_roles : List RoleRow
  sweets : List Sweet
  purchases : List PurchaseRow
deriving DecidableEq, Repr

/-- `public.has_role(_user_id, _role)`: `SELECT EXISTS (SELECT 1 FROM
public.user_roles WHERE user_id = _user_id AND role = _role)`.  The
function is `SECURITY DEFINER`, so it scans the whole table, not the
caller-visible rows. -/
def has_role (db : DB) (uid : Nat) (r : AppRole) : Bool :=
  db.user_roles.any (fun row => row.user_id == uid && row.role == r)

/-- Policy "Users can view own profile": `USING (auth.uid() = id)`. -/
def profiles_select_policy (uid : Nat) (p : ProfileRow) : Bool :=
  uid == p.id

/-- Policy "Users can update own profile": `USING (auth.uid() = id)`. -/
def profiles_update_policy (uid : Nat) (p : ProfileRow) : Bool :=
  uid == p.id

/-- Policy "Users can view own roles": `USING (auth.uid() = user_id)`. -/
def user_roles_select_policy (uid : Nat) (r : RoleRow) : Bool :=
  uid == r.user_id

/-- Policy "Anyone can view sweets": `USING (true)`. -/
def sweets_select_policy (_uid : Nat) (_s : Sweet) : Bool :=
  true

/-- Policy "Admins can insert sweets":
`WITH CHECK (public.has_role(auth.uid(), 'admin'))`. -/
def sweets_insert_policy (db : DB) (uid : Nat) : Bool :=
  has_role db uid AppRole.admin

/-- Policy "Admins can update sweets":
`USING (public.has_role(auth.uid(), 'admin'))`. -/
def sweets_update_policy (db : DB) (uid : Nat) : Bool :=
  has_role db uid AppRole.admin

/-- Policy "Admins can delete sweets":
`USING (public.has_role(auth.uid(), 'admin'))`. -/
def sweets_delete_policy (db : DB) (uid : Nat) : Bool :=
  has_role db uid AppRole.admin

/-- Policy "Users can create purchases":
`WITH CHECK (auth.uid() = user_id)`. -/
def purchases_insert_policy (uid : Nat) (p : PurchaseRow) : Bool :=
  uid == p.user_id

/-- Policies "Users can view own purchases" OR "Admins can view all
purchases" (permissive policies combine disjunctively). -/
def purchases_select_policy (db : DB) (uid : Nat) (p : PurchaseRow) : Bool :=
  uid == p.user_id || has_role db uid AppRole.admin

/-- The table CHECK constraints of `public.sweets`:
`CHECK (price >= 0)` and `CHECK (quantity >= 0)`. -/
def sweetCheck (s : Sweet) : Bool :=
  decide (0 ≤ s.price) && decide (0 ≤ s.quantity)

/-- The table CHECK constraint of `public.purchases`:
`CHECK (quantity > 0)` (total_price has no CHECK). -/
def purchaseCheck (p : PurchaseRow) : Bool :=
  decide (0 < p.quantity)

/-- All stored sweets satisfy the schema CHECK constraints. -/
def sweetsValid (db : DB) : Prop :=
  ∀ s ∈ db.sweets, sweetCheck s = true

/-- `SELECT * FROM sweets` as caller `uid`: RLS filters by the select
policy (which here admits every row). -/
def visibleSweets (db : DB) (uid : Nat) : List Sweet :=
  db.sweets.filter (fun s => sweets_select_policy uid s)

/-- `SELECT ... FROM sweets WHERE id = sid ... single()` as caller
`uid` (the quantity re-read of `handlePurchase`). -/
def findSweet (db : DB) (uid : Nat) (sid : Nat) : Option Sweet :=
  (visibleSweets db uid).find? (fun s => s.id == sid)

/-- `INSERT INTO sweets` as caller `uid`: subject to the insert
policy's `WITH CHECK`, the PK constraint and the CHECK constraints. -/
def insertSweets (db : DB) (uid : Nat) (s : Sweet) : Except Unit DB :=
  if sweets_insert_policy db uid && sweetCheck s
      && !db.sweets.any (fun t => t.id == s.id) then
    Except.ok { db with sweets := db.sweets ++ [s] }
  else
    Except.error ()

/-- A partial update payload for a `sweets` row, one optional value per
updatable column. -/
structure SweetPatch where
  name : Option String := none
  category : Option String := none
  price : Option Int := none
  quantity : Option Int := none
  description : Option (Option String) := none
  image_url : Option (Option String) := none
deriving DecidableEq, Repr

/-- Apply an update payload to a row (columns absent from the payload
keep their stored value; the id is never part of a payload). -/
def applySweetPatch (p : SweetPatch) (s : Sweet) : Sweet :=
  { s with
    name := p.name.getD s.name
    category := p.category.getD s.category
    price := p.price.getD s.price
    quantity := p.quantity.getD s.quantity
    description := p.description.getD s.description
    image_url := p.image_url.getD s.image_url }

/-- A `sweets` row is touched by `UPDATE sweets ... WHERE id = sid` as
caller `uid` iff it matches the WHERE clause and passes the update
policy's `USING` expression. -/
def sweetTouched (db : DB) (uid : Nat) (sid : Nat) (s : Sweet) : Bool :=
  s.id == sid && sweets_update_policy db uid

/-- `UPDATE sweets SET ... WHERE id = sid` as caller `uid`.  Rows
failing the `USING` policy are silently skipped (zero rows updated is a
success); if any updated row would violate a CHECK constraint the whole
statement errors and nothing changes. -/
def updateSweets (db : DB) (uid : Nat) (sid : Nat) (p : SweetPatch) :
    Except Unit DB :=
  if db.sweets.all
      (fun s => !sweetTouched db uid sid s || sweetCheck (applySweetPatch p s)) then
    Except.ok { db with
      sweets := db.sweets.map
        (fun s => if sweetTouched db uid sid s then applySweetPatch p s else s) }
  else
    Except.error ()

/-- `DELETE FROM sweets WHERE id = sid` as caller `uid`.  Rows failing
the `USING` policy are silently skipped; deleting a sweet cascades to
its `purchases` rows (`ON DELETE CASCADE`). -/
def deleteSweets (db : DB) (uid : Nat) (sid : Nat) : DB :=
  if sweets_delete_policy db uid then
    { db with
      sweets := db.sweets.filter (fun s => s.id != sid)
      purchases := db.purchases.filter (fun p => p.sweet_id != sid) }
  else
    db

/-- `INSERT INTO purchases` as caller `uid`: subject to the insert
policy's `WITH CHECK`, the quantity CHECK constraint and the foreign
keys to `auth.users` and `sweets`. -/
def insertPurchases (db : DB) (uid : Nat) (p : PurchaseRow) : Except Unit DB :=
  if purchases_insert_policy uid p && purchaseCheck p
      && db.users.contains p.user_id
      && db.sweets.any (fun s => s.id == p.sweet_id) then
    Except.ok { db with purchases := db.purchases ++ [p] }
  else
    Except.error ()

/-- Whether a statement succeeded. -/
def writeOk (e : Except Unit DB) : Bool :=
  match e with
  | Except.ok _ => true
  | Except.error _ => false

/-!  The client purchase flow (`handlePurchase` in `Dashboard.tsx`). -/

/-- Outcome of a purchase attempt, one per toast the client can show:
"out of stock", "Failed to complete purchase", "Failed to update
inventory", "Purchased!". -/
inductive PurchaseOutcome where
  | unavailable
  | purchaseFailed
  | inventoryFailed
  | success
deriving DecidableEq, Repr

/-- Network environment of one purchase attempt: whether the purchase
insert request, respectively the stock update request, fails in
transit before reaching the database. -/
structure NetEnv where
  insertFail : Bool
  updateFail : Bool
deriving DecidableEq, Repr

/-- `handlePurchase` from `Dashboard.tsx`, for an authenticated caller
`uid` clicking Purchase on card `sweet`:
1. re-read the row's quantity (`select quantity eq id single`);
2. if not found or the quantity is 0, stop with "out of stock";
3. `insert into purchases {user_id: uid, sweet_id, quantity: 1,
   total_price: sweet.price}`;
4. on insert error stop with "Failed to complete purchase";
5. `update sweets set quantity = (read value) - 1 where id = sweet.id`;
6. on update error report "Failed to update inventory", else success.
Returns the outcome and the database state the flow leaves behind. -/
def handlePurchase (env : NetEnv) (db : DB) (uid : Nat) (sweet : Sweet) :
    PurchaseOutcome × DB :=
  match findSweet db uid sweet.id with
  | none => (PurchaseOutcome.unavailable, db)
  | some cur =>
    if cur.quantity == 0 then
      (PurchaseOutcome.unavailable, db)
    else
      match (if env.insertFail then Except.error () else
             insertPurchases db uid ⟨uid, sweet.id, 1, sweet.price⟩) with
      | Except.error _ => (PurchaseOutcome.purchaseFailed, db)
      | Except.ok db1 =>
        match (if env.updateFail then Except.error () else
               updateSweets db1 uid sweet.id { quantity := some (cur.quantity - 1) }) with
        | Except.error _ => (PurchaseOutcome.inventoryFailed, db1)
        | Except.ok db2 => (PurchaseOutcome.success, db2)

/-!  The admin restock flow (`handleRestock` in the admin panel). -/

/-- JavaScript numeric character classes used by `parseInt`. -/
def jsSpace (c : Char) : Bool :=
  c == ' ' || c == '\t' || c == '\n' || c == '\r' || c == '\x0b' || c == '\x0c'

/-- Decimal digit. -/
def isDigit10 (c : Char) : Bool :=
  48 ≤ c.toNat && c.toNat ≤ 57

/-- Hexadecimal digit. -/
def isDigit16 (c : Char) : Bool :=
  isDigit10 c || (97 ≤ c.toNat && c.toNat ≤ 102) || (65 ≤ c.toNat && c.toNat ≤ 70)

/-- Value of a (hex) digit character. -/
def digitVal (c : Char) : Nat :=
  if c.toNat ≤ 57 then c.toNat - 48
  else if c.toNat ≤ 70 then c.toNat - 55
  else c.toNat - 87

/-- Accumulate a digit list in the given base. -/
def digitsToNat (base : Nat) (ds : List Char) : Nat :=
  ds.foldl (fun acc c => acc * base + digitVal c) 0

/-- JavaScript `parseInt(s)` (radix argument omitted): skip leading
whitespace, an optional sign, then an optional `0x`/`0X` hex prefix,
and read the longest run of digits, ignoring any trailing garbage;
`none` models `NaN` (no digits found). -/
def parseIntJS (s : String) : Option Int :=
  let cs := s.data.dropWhile jsSpace
  let sign : Int := match cs with
    | '-' :: _ => -1
    | _ => 1
  let cs1 := match cs with
    | '-' :: r => r
    | '+' :: r => r
    | r => r
  match cs1 with
  | '0' :: 'x' :: r =>
    let ds := r.takeWhile isDigit16
    if ds.isEmpty then none else some (sign * (digitsToNat 16 ds : Int))
  | '0' :: 'X' :: r =>
    let ds := r.takeWhile isDigit16
    if ds.isEmpty then none else some (sign * (digitsToNat 16 ds : Int))
  | r =>
    let ds := r.takeWhile isDigit10
    if ds.isEmpty then none else some (sign * (digitsToNat 10 ds : Int))

/-- Outcome of a restock attempt: prompt cancelled (`null`), "Invalid
quantity", "Failed to restock", "Stock updated successfully". -/
inductive RestockOutcome where
  | cancelled
  | invalid
  | updateFailed
  | success
deriving DecidableEq, Repr

/-- `handleRestock` from the admin panel: `prompt` yields `input`
(`none` models cancel); `parseInt` the reply; reject with "Invalid
quantity" if `NaN` or negative; otherwise send
`update sweets set quantity = q where id = sid`.  The middle component
records the quantity value sent to the data layer (`none` when no
update request was issued). -/
def handleRestock (db : DB) (uid : Nat) (sid : Nat) (input : Option String) :
    RestockOutcome × Option Int × DB :=
  match input with
  | none => (RestockOutcome.cancelled, none, db)
  | some s =>
    match parseIntJS s with
    | none => (RestockOutcome.invalid, none, db)
    | some q =>
      if q < 0 then
        (RestockOutcome.invalid, none, db)
      else
        match updateSweets db uid sid { quantity := some q } with
        | Except.error _ => (RestockOutcome.updateFailed, some q, db)
        | Except.ok db1 => (RestockOutcome.success, some q, db1)

/-!  Identity provisioning (`handle_new_user` trigger). -/

/-- The data the auth provider inserts into `auth.users` on
registration: the new id, the email, and the optional
`raw_user_meta_data->>'full_name'`. -/
structure NewUser where
  id : Nat
  email : String
  meta_full_name : Option String
deriving DecidableEq, Repr

/-- `INSERT INTO public.profiles (id, email, full_name)`: subject to
the PK constraint and the FK to `auth.users`.  The trigger runs as
`SECURITY DEFINER`, so no RLS policy applies. -/
def insertProfile (db : DB) (p : ProfileRow) : Except Unit DB :=
  if db.profiles.any (fun q => q.id == p.id) || !db.users.contains p.id then
    Except.error ()
  else
    Except.ok { db with profiles := db.profiles ++ [p] }

/-- `INSERT INTO public.user_roles (user_id, role)`: subject to
`UNIQUE(user_id, role)` and the FK to `auth.users`; runs as
`SECURITY DEFINER`. -/
def insertUserRole (db : DB) (r : RoleRow) : Except Unit DB :=
  if db.user_roles.any (fun q => q.user_id == r.user_id && q.role == r.role)
      || !db.users.contains r.user_id then
    Except.error ()
  else
    Except.ok { db with user_roles := db.user_roles ++ [r] }

/-- The body of `public.handle_new_user()`: insert the profile row
(full_name = `COALESCE(meta->>'full_name', '')`), then the `'user'`
role grant. -/
def handle_new_user (db : DB) (u : NewUser) : Except Unit DB :=
  match insertProfile db ⟨u.id, u.email, u.meta_full_name.getD ""⟩ with
  | Except.error e => Except.error e
  | Except.ok db1 => insertUserRole db1 ⟨u.id, AppRole.user⟩

/-- Creation of a new identity: insert into `auth.users` (PK on id),
then fire the `on_auth_user_created` AFTER INSERT trigger in the same
transaction — if the trigger raises, the whole transaction (including
the `auth.users` insert) rolls back and no state is returned. -/
def createUser (db : DB) (u : NewUser) : Except Unit DB :=
  if db.users.contains u.id then
    Except.error ()
  else
    handle_new_user { db with users := db.users ++ [u.id] } u

/-!  An explicit interleaving of two purchase attempts.

`interleavedPurchases` runs the exact step operations of
`handlePurchase` for two callers `a` and `b` on the same product,
scheduled so that both quantity reads (step 1) happen before either
write: read A, read B, check A, check B, insert A's purchase row,
insert B's purchase row, A's stock update, B's stock update.  `none`
means some step of either flow failed. -/

/-- Two purchase attempts on product `sid` at unit price `price`,
interleaved so both reads precede both write phases. -/
def interleavedPurchases (db : DB) (a : Nat) (b : Nat) (sid : Nat)
    (price : Int) : Option DB :=
  match findSweet db a sid, findSweet db b sid with
  | some curA, some curB =>
    if curA.quantity == 0 || curB.quantity == 0 then none
    else
      match insertPurchases db a ⟨a, sid, 1, price⟩ with
      | Except.error _ => none
      | Except.ok db1 =>
        match insertPurchases db1 b ⟨b, sid, 1, price⟩ with
        | Except.error _ => none
        | Except.ok db2 =>
          match updateSweets db2 a sid { quantity := some (curA.quantity - 1) } with
          | Except.error _ => none
          | Except.ok db3 =>
            match updateSweets db3 b sid { quantity := some (curB.quantity - 1) } with
            | Except.error _ => none
            | Except.ok db4 => some db4
  | _, _ => none

/-!  Further definitions used by the statements below. -/

/-- Replace the stored quantity of the sweet `sid` (used to state that
an authorization decision is independent of the current stock). -/
def setSweetQuantity (db : DB) (sid : Nat) (q : Int) : DB :=
  { db with
    sweets := db.sweets.map
      (fun s => if s.id == sid then { s with quantity := q } else s) }

/-- The update payload `handleRestock` sends: `{ quantity }`. -/
def restockPatch (q : Int) : SweetPatch :=
  { quantity := some q }

/-- Whether a string is the decimal representation of a non-negative
integer (a non-empty run of decimal digits and nothing else). -/
def isNonnegIntString (s : String) : Bool :=
  !s.data.isEmpty && s.data.all isDigit10

/-- Schema safety of every write path that touches `sweets`: inserts
and updates that would store a negative price or quantity are rejected
with an error (all-or-nothing, so the stored rows are unchanged), and
every write path — admin insert, admin update, the purchase flow's
decrement, the restock flow — preserves `sweetsValid`. -/
def SweetsWriteSafety (db : DB) (uid : Nat) (sid : Nat) (s : Sweet)
    (p : SweetPatch) : Prop :=
  (sweetCheck s = false → insertSweets db uid s = Except.error ()) ∧
  (∀ db', insertSweets db uid s = Except.ok db' → sweetsValid db') ∧
  (updateSweets db uid sid p = Except.error () ↔
    ∃ t ∈ db.sweets, sweetTouched db uid sid t = true ∧
      sweetCheck (applySweetPatch p t) = false) ∧
  (∀ db', updateSweets db uid sid p = Except.ok db' → sweetsValid db') ∧
  (∀ env u sw, sweetsValid (handlePurchase env db u sw).2) ∧
  (∀ inp, sweetsValid (handleRestock db uid sid inp).2.2)

/-- Access control on `sweets`: reads are unconditionally public, a
caller without the admin role gets an error on insert and a silent
no-op on update and delete, and any write that has an effect implies
the caller holds the admin role. -/
def SweetsAccessControl (db : DB) (uid : Nat) (sid : Nat) (s : Sweet)
    (p : SweetPatch) : Prop :=
  visibleSweets db uid = db.sweets ∧
  (has_role db uid AppRole.admin = false →
    insertSweets db uid s = Except.error () ∧
    updateSweets db uid sid p = Except.ok db ∧
    deleteSweets db uid sid = db) ∧
  (∀ db', insertSweets db uid s = Except.ok db' →
    has_role db uid AppRole.admin = true) ∧
  (∀ db', updateSweets db uid sid p = Except.ok db' → db' ≠ db →
    has_role db uid AppRole.admin = true) ∧
  (deleteSweets db uid sid ≠ db → has_role db uid AppRole.admin = true)

/-- Provisioning contract of identity creation: the trigger's inserts
are atomic with the `auth.users` insert (a failing trigger fails the
whole creation), and a successful creation leaves exactly one profile
row (email copied, full name defaulted) and exactly one `'user'` role
grant for the new id. -/
def ProvisioningSpec (db : DB) (u : NewUser) : Prop :=
  (∀ d : DB,
    writeOk (handle_new_user { d with users := d.users ++ [u.id] } u) = false →
    createUser d u = Except.error ()) ∧
  ∃ db', createUser db u = Except.ok db' ∧
    db'.users = db.users ++ [u.id] ∧
    db'.profiles.filter (fun p => p.id == u.id) =
      [⟨u.id, u.email, u.meta_full_name.getD ""⟩] ∧
    db'.user_roles.filter (fun r => r.user_id == u.id) =
      [⟨u.id, AppRole.user⟩] ∧
    db'.sweets = db.sweets ∧ db'.purchases = db.purchases

/-!  Concrete fixtures (ids are arbitrary small naturals; prices are
cents, e.g. `349` is the seeded `Lemon Drops` price `3.49`). -/

/-- The seeded `Lemon Drops` row, with one unit left in stock. -/
def sweetA : Sweet := ⟨10, "Lemon Drops", "Hard Candy", 349, 1, none, none⟩

/-- A listed sweet that is out of stock. -/
def sweetZero : Sweet := ⟨11, "Empty Jar", "Hard Candy", 100, 0, none, none⟩

/-- A well-formed new row an admin might insert. -/
def sweetNew : Sweet := ⟨12, "Caramel Fudge", "Caramel", 899, 40, none, none⟩

/-- A row violating both CHECK constraints. -/
def badSweet : Sweet := ⟨13, "Broken", "Misc", -100, -5, none, none⟩

/-- A card whose row no longer exists in the database. -/
def sweetGone : Sweet := ⟨99, "Ghost Drop", "Misc", 100, 5, none, none⟩

/-- A small state: identity 1 is an admin, identity 2 a plain user. -/
def db0 : DB :=
  { users := [1, 2]
    profiles := [⟨1, "a@shop.test", "Alice"⟩, ⟨2, "b@shop.test", "Bob"⟩]
    user_roles := [⟨1, AppRole.admin⟩, ⟨1, AppRole.user⟩, ⟨2, AppRole.user⟩]
    sweets := [sweetA, sweetZero]
    purchases := [] }

/-- `db0` right after buyer 2's purchase-row insert. -/
def db0ins : DB :=
  { db0 with purchases := [⟨2, 10, 1, 349⟩] }

/-- A state where both identities 1 and 3 hold the admin role and one
unit of `sweetA` is in stock. -/
def db9 : DB :=
  { users := [1, 3]
    profiles := []
    user_roles := [⟨1, AppRole.admin⟩, ⟨3, AppRole.admin⟩]
    sweets := [sweetA]
    purchases := [] }

/-!  Helper lemmas shared by several results. -/

/-- A network-wrapped request that came back `ok` was not a transport
failure, so the underlying statement itself succeeded. -/
theorem net_ok {b : Bool} {e : Except Unit DB} {db' : DB}
    (h : (if b then Except.error () else e) = Except.ok db') :
    e = Except.ok db' := by
  cases b
  · simpa using h
  · simp at h

/-- Shape of a successful purchase-row insert. -/
theorem insertPurchases_ok {db : DB} {uid : Nat} {p : PurchaseRow} {db' : DB}
    (h : insertPurchases db uid p = Except.ok db') :
    db' = { db with purchases := db.purchases ++ [p] } := by
  unfold insertPurchases at h
  split at h
  · cases h
    rfl
  · cases h

/-- A successful `sweets` update keeps every stored row valid. -/
theorem updateSweets_ok_valid {db : DB} {uid sid : Nat} {p : SweetPatch}
    {db' : DB} (hdb : sweetsValid db)
    (h : updateSweets db uid sid p = Except.ok db') : sweetsValid db' := by
  unfold updateSweets at h
  by_cases hall : (db.sweets.all
      (fun s => !sweetTouched db uid sid s || sweetCheck (applySweetPatch p s))) = true
  · rw [if_pos hall] at h
    cases h
    intro s hs
    rw [List.all_eq_true] at hall
    simp only [DB.mk.injEq, List.mem_map] at hs
    obtain ⟨t, ht, rfl⟩ := hs
    by_cases htouch : sweetTouched db uid sid t = true
    · have := hall t ht
      rw [htouch] at this
      simp only [Bool.not_true, Bool.false_or] at this
      simp [htouch, this]
    · simp only [Bool.not_eq_true] at htouch
      simp only [htouch, Bool.false_eq_true, if_false]
      exact hdb t ht
  · rw [if_neg hall] at h
    cases h

/-- The purchase flow leaves every stored `sweets` row valid. -/
theorem handlePurchase_valid (env : NetEnv) (db : DB) (uid : Nat) (sw : Sweet)
    (hdb : sweetsValid db) : sweetsValid (handlePurchase env db uid sw).2 := by
  unfold handlePurchase
  cases hfind : findSweet db uid sw.id with
  | none => exact hdb
  | some cur =>
    simp only
    by_cases hq : (cur.quantity == 0) = true
    · rw [if_pos hq]
      exact hdb
    · rw [if_neg hq]
      cases hins : (if env.insertFail then Except.error () else
          insertPurchases db uid ⟨uid, sw.id, 1, sw.price⟩) with
      | error e => exact hdb
      | ok db1 =>
        have hins' := net_ok hins
        have hdb1 : sweetsValid db1 := by
          rw [insertPurchases_ok hins']
          exact hdb
        simp only
        cases hupd : (if env.updateFail then Except.error () else
            updateSweets db1 uid sw.id { quantity := some (cur.quantity - 1) }) with
        | error e => exact hdb1
        | ok db2 =>
          exact updateSweets_ok_valid hdb1 (net_ok hupd)

/-- The restock flow leaves every stored `sweets` row valid. -/
theorem handleRestock_valid (db : DB) (uid sid : Nat) (input : Option String)
    (hdb : sweetsValid db) : sweetsValid (handleRestock db uid sid input).2.2 := by
  unfold handleRestock
  cases input with
  | none => exact hdb
  | some s =>
    simp only
    cases parseIntJS s with
    | none => exact hdb
    | some q =>
      simp only
      by_cases hq : q < 0
      · rw [if_pos hq]
        exact hdb
      · rw [if_neg hq]
        cases hupd : updateSweets db uid sid { quantity := some q } with
        | error e => exact hdb
        | ok db1 => exact updateSweets_ok_valid hdb hupd

/-!  The claims. -/

/-- C1: for every purchase attempt by an authenticated caller, if the
product row cannot be found or its re-read quantity is 0, the flow
ends with the "unavailable" outcome and the database is exactly the
one it started from — no Purchase row is inserted and no stock value
is written. -/
theorem purchase_unavailable (env : NetEnv) (db : DB) (uid : Nat) (s : Sweet)
    (h : findSweet db uid s.id = none ∨
      ∃ cur, findSweet db uid s.id = some cur ∧ cur.quantity = 0) :
    handlePurchase env db uid s = (PurchaseOutcome.unavailable, db) := by
  rcases h with h | ⟨cur, hfind, hq⟩
  · simp [handlePurchase, h]
  · simp [handlePurchase, hfind, hq]

/-- Witness for C1: buyer 2's attempt on the out-of-stock `sweetZero`
fails as unavailable and leaves `db0` untouched. -/
theorem purchase_unavailable_witness :
    handlePurchase ⟨false, false⟩ db0 2 sweetZero =
      (PurchaseOutcome.unavailable, db0) :=
  purchase_unavailable ⟨false, false⟩ db0 2 sweetZero
    (Or.inr ⟨sweetZero, by decide, by decide⟩)

/-- C2 (evaluation at the failing input): the plain user 2 purchases
`sweetA` (one unit in stock, no transport failures); the flow reports
success and inserts the Purchase row, but the stock update is silently
filtered out by the admin-only `sweets` UPDATE policy (zero rows
matched, no error), so the stored quantity is NOT decremented — it
stays at 1. -/
theorem purchase_success_no_decrement :
    (handlePurchase ⟨false, false⟩ db0 2 sweetA).1 = PurchaseOutcome.success ∧
    (handlePurchase ⟨false, false⟩ db0 2 sweetA).2.purchases =
      db0.purchases ++ [⟨2, 10, 1, 349⟩] ∧
    (handlePurchase ⟨false, false⟩ db0 2 sweetA).2.sweets = db0.sweets ∧
    findSweet (handlePurchase ⟨false, false⟩ db0 2 sweetA).2 2 10 = some sweetA ∧
    has_role db0 2 AppRole.admin = false := by
  decide

/-- C3: whenever the purchase-row insert (step 3) succeeds and the
subsequent stock update (step 5) fails, the flow ends with the
inventory-update failure outcome and the state it leaves behind still
contains the Purchase row inserted in step 3 — step 3 is never rolled
back. -/
theorem purchase_no_rollback (env : NetEnv) (db db1 : DB) (uid : Nat)
    (s cur : Sweet)
    (hfind : findSweet db uid s.id = some cur)
    (hq : (cur.quantity == 0) = false)
    (hins : (if env.insertFail then Except.error () else
      insertPurchases db uid ⟨uid, s.id, 1, s.price⟩) = Except.ok db1)
    (hupd : (if env.updateFail then Except.error () else
      updateSweets db1 uid s.id { quantity := some (cur.quantity - 1) }) =
      Except.error ()) :
    handlePurchase env db uid s = (PurchaseOutcome.inventoryFailed, db1) ∧
    (⟨uid, s.id, 1, s.price⟩ : PurchaseRow) ∈ db1.purchases := by
  constructor
  · simp [handlePurchase, hfind, hq, hins, hupd]
  · rw [insertPurchases_ok (net_ok hins)]
    simp

/-- Witness for C3: buyer 2's insert into `purchases` succeeds, the
stock update request fails in transit, the outcome is the
inventory-update failure and the Purchase row persists. -/
theorem purchase_no_rollback_witness :
    handlePurchase ⟨false, true⟩ db0 2 sweetA =
      (PurchaseOutcome.inventoryFailed, db0ins) ∧
    (⟨2, 10, 1, 349⟩ : PurchaseRow) ∈ db0ins.purchases :=
  purchase_no_rollback ⟨false, true⟩ db0 db0ins 2 sweetA sweetA
    (by decide) (by decide) rfl rfl

/-- C4: the schema keeps every stored sweet's quantity and price
non-negative; an insert or update that would store a negative value is
rejected with an error (and, the statement being all-or-nothing, the
stored rows are unchanged); the admin write paths, the purchase flow's
decrement and the restock flow all preserve the invariant. -/
theorem sweets_invariant (db : DB) (uid sid : Nat) (s : Sweet) (p : SweetPatch)
    (hdb : sweetsValid db) : SweetsWriteSafety db uid sid s p := by
  refine ⟨?_, ?_, ?_, ?_, ?_, ?_⟩
  · intro hbad
    unfold insertSweets
    rw [if_neg]
    simp [hbad]
  · intro db' h
    unfold insertSweets at h
    by_cases hc : (sweets_insert_policy db uid && sweetCheck s
        && !db.sweets.any (fun t => t.id == s.id)) = true
    · rw [if_pos hc] at h
      cases h
      have hchk : sweetCheck s = true := by
        simp only [Bool.and_eq_true] at hc
        exact hc.1.2
      intro t ht
      simp only [List.mem_append, List.mem_singleton] at ht
      rcases ht with ht | rfl
      · exact hdb t ht
      · exact hchk
    · rw [if_neg hc] at h
      simp at h
  · constructor
    · intro h
      unfold updateSweets at h
      by_cases hall : (db.sweets.all (fun t =>
          !sweetTouched db uid sid t || sweetCheck (applySweetPatch p t))) = true
      · rw [if_pos hall] at h
        simp at h
      · rw [List.all_eq_true] at hall
        push_neg at hall
        obtain ⟨t, ht, hcond⟩ := hall
        simp at hcond
        exact ⟨t, ht, hcond.1, hcond.2⟩
    · rintro ⟨t, ht, htouch, hbad⟩
      unfold updateSweets
      rw [if_neg]
      intro hall
      rw [List.all_eq_true] at hall
      have := hall t ht
      rw [htouch, hbad] at this
      simp at this
  · intro db' h
    exact updateSweets_ok_valid hdb h
  · intro env u sw
    exact handlePurchase_valid env db u sw hdb
  · intro inp
    exact handleRestock_valid db uid sid inp hdb

/-- Witness for C4, at a state satisfying the invariant, a row
violating both CHECKs, and a payload that would drive the quantity
negative. -/
theorem sweets_invariant_witness :
    SweetsWriteSafety db0 1 10 badSweet (restockPatch (-7)) :=
  sweets_invariant db0 1 10 badSweet (restockPatch (-7))
    (by unfold sweetsValid; decide)

/-- C5: everyone can read every `sweets` row; a caller without the
admin role gets an error on insert and leaves the state unchanged on
update and delete; conversely any insert success or effectful update
or delete implies the caller holds the admin role — independently of
the submitted payload. -/
theorem sweets_rls (db : DB) (uid sid : Nat) (s : Sweet) (p : SweetPatch) :
    SweetsAccessControl db uid sid s p := by
  have hvis : visibleSweets db uid = db.sweets := by
    simp [visibleSweets, sweets_select_policy]
  have hins : has_role db uid AppRole.admin = false →
      insertSweets db uid s = Except.error () := by
    intro hna
    unfold insertSweets
    rw [if_neg]
    simp [sweets_insert_policy, hna]
  have hupd : has_role db uid AppRole.admin = false →
      updateSweets db uid sid p = Except.ok db := by
    intro hna
    have htouch : ∀ t, sweetTouched db uid sid t = false := by
      intro t
      simp [sweetTouched, sweets_update_policy, hna]
    unfold updateSweets
    rw [if_pos]
    · have hmap : db.sweets.map (fun t =>
          if sweetTouched db uid sid t = true then applySweetPatch p t else t) =
          db.sweets := by
        simp [htouch]
      rw [hmap]
    · rw [List.all_eq_true]
      intro t ht
      simp [htouch t]
  have hdel : has_role db uid AppRole.admin = false →
      deleteSweets db uid sid = db := by
    intro hna
    unfold deleteSweets
    rw [if_neg]
    simp [sweets_delete_policy, hna]
  cases hb : has_role db uid AppRole.admin with
  | false =>
    refine ⟨hvis, fun _ => ⟨hins hb, hupd hb, hdel hb⟩, ?_, ?_, ?_⟩
    · intro db' h
      rw [hins hb] at h
      simp at h
    · intro db' h hne
      rw [hupd hb] at h
      injection h with h
      exact absurd h.symm hne
    · intro hne
      exact absurd (hdel hb) hne
  | true =>
    refine ⟨hvis, ?_, fun _ _ => hb, fun _ _ _ => hb, fun _ => hb⟩
    intro hna
    rw [hna] at hb
    simp at hb

/-- Witness for C5: the plain user 2 against state `db0`. -/
theorem sweets_rls_witness : SweetsAccessControl db0 2 10 sweetNew (restockPatch 7) :=
  sweets_rls db0 2 10 sweetNew (restockPatch 7)

/-- C6: identity creation is atomic with the provisioning trigger — a
trigger failure fails the whole creation — and creating a fresh
identity leaves exactly one profile row for it (id and email copied
from registration, full name defaulted to the empty string when the
metadata has none) and exactly one `'user'` role grant, touching
nothing else. -/
theorem provisioning (db : DB) (u : NewUser)
    (h1 : db.users.contains u.id = false)
    (h2 : db.profiles.all (fun p => p.id != u.id) = true)
    (h3 : db.user_roles.all (fun r => r.user_id != u.id) = true) :
    ProvisioningSpec db u := by
  constructor
  · intro d hfail
    unfold createUser
    by_cases hc : d.users.contains u.id = true
    · rw [if_pos hc]
    · rw [if_neg hc]
      cases hh : handle_new_user { d with users := d.users ++ [u.id] } u with
      | error e => cases e; rfl
      | ok dd =>
        rw [hh] at hfail
        simp [writeOk] at hfail
  · have hAny2 : db.profiles.any (fun q => q.id == u.id) = false := by
      simp [List.all_eq_true] at h2
      simp [List.any_eq_false]
      exact h2
    have hAny3 : db.user_roles.any
        (fun q => q.user_id == u.id && q.role == AppRole.user) = false := by
      simp [List.all_eq_true] at h3
      simp [List.any_eq_false]
      intro r hr
      exact fun hx => absurd hx (h3 r hr)
    have h1' : u.id ∉ db.users := by simpa using h1
    refine ⟨{ users := db.users ++ [u.id]
              profiles := db.profiles ++ [⟨u.id, u.email, u.meta_full_name.getD ""⟩]
              user_roles := db.user_roles ++ [⟨u.id, AppRole.user⟩]
              sweets := db.sweets
              purchases := db.purchases }, ?_, rfl, ?_, ?_, rfl, rfl⟩
    · simp [createUser, handle_new_user, insertProfile, insertUserRole, h1',
        hAny2, hAny3]
    · rw [List.filter_append]
      have hnil : db.profiles.filter (fun p => p.id == u.id) = [] := by
        simp [List.filter_eq_nil_iff]
        simp [List.all_eq_true] at h2
        exact h2
      simp [hnil]
    · rw [List.filter_append]
      have hnil : db.user_roles.filter (fun r => r.user_id == u.id) = [] := by
        simp [List.filter_eq_nil_iff]
        simp [List.all_eq_true] at h3
        exact h3
      simp [hnil]

/-- Witness for C6: registering the fresh identity 4 in `db0`. -/
theorem provisioning_witness : ProvisioningSpec db0 ⟨4, "d@shop.test", none⟩ :=
  provisioning db0 ⟨4, "d@shop.test", none⟩ (by decide) (by decide) (by decide)

/-- C7: `has_role` answers exactly "does a RoleGrant row for this
(identity, role) pair exist" — it is a pure function of the state —
and, running with its definer's privileges, it consults rows that the
row-level SELECT policy on `user_roles` hides from the caller: in
`db0`, caller 2 cannot see any admin grant of identity 1, yet
`has_role` affirms it. -/
theorem has_role_spec (db : DB) (uid : Nat) (r : AppRole) :
    (has_role db uid r = true ↔
      ∃ row ∈ db.user_roles, row.user_id = uid ∧ row.role = r) ∧
    (∃ d caller target, has_role d target AppRole.admin = true ∧
      (d.user_roles.filter (fun row => user_roles_select_policy caller row)).all
        (fun row => !(row.user_id == target && row.role == AppRole.admin)) = true) := by
  constructor
  · simp [has_role, List.any_eq_true]
  · exact ⟨db0, 2, 1, by decide, by decide⟩

/-- C8 counterexample: the input `"5.9"` is not the decimal
representation of a non-negative integer, yet the restock flow does
not reject it — JavaScript `parseInt` truncates it to `5`, and an
update carrying quantity 5 is sent to the data layer (and succeeds for
the admin caller 1). -/
theorem restock_nonint_update_sent :
    isNonnegIntString "5.9" = false ∧
    (handleRestock db0 1 10 (some "5.9")).1 = RestockOutcome.success ∧
    (handleRestock db0 1 10 (some "5.9")).2.1 = some 5 := by
  decide

/-- C8 (amended): no update is sent iff the prompt was cancelled or
`parseInt` of the input is `NaN` or negative; otherwise the update
sent carries exactly the parsed non-negative integer, and the payload
sets the stored quantity to that value absolutely (not as a delta). -/
theorem restock_validation (db : DB) (uid sid : Nat) (input : Option String) :
    ((handleRestock db uid sid input).2.1 = none ↔
      input = none ∨ ∃ s, input = some s ∧
        (parseIntJS s = none ∨ ∃ q, parseIntJS s = some q ∧ q < 0)) ∧
    (∀ q, (handleRestock db uid sid input).2.1 = some q →
      0 ≤ q ∧ (∃ s, input = some s ∧ parseIntJS s = some q) ∧
      (handleRestock db uid sid input).2.2 =
        (match updateSweets db uid sid (restockPatch q) with
         | Except.ok db1 => db1
         | Except.error _ => db)) ∧
    (∀ (q : Int) (t : Sweet),
      applySweetPatch (restockPatch q) t = { t with quantity := q }) := by
  refine ⟨?_, ?_, ?_⟩
  · cases input with
    | none => simp [handleRestock]
    | some s =>
      cases hp : parseIntJS s with
      | none => simp [handleRestock, hp]
      | some q =>
        by_cases hq : q < 0
        · simp [handleRestock, hp, hq]
        · cases hupd : updateSweets db uid sid { quantity := some q } with
          | error e => simp [handleRestock, hp, hq, hupd]
          | ok db1 => simp [handleRestock, hp, hq, hupd]
  · intro q' hsent
    cases input with
    | none => simp [handleRestock] at hsent
    | some s =>
      cases hp : parseIntJS s with
      | none => simp [handleRestock, hp] at hsent
      | some q =>
        by_cases hq : q < 0
        · simp [handleRestock, hp, hq] at hsent
        · cases hupd : updateSweets db uid sid { quantity := some q } with
          | error e =>
            simp [handleRestock, hp, hq, hupd] at hsent
            subst hsent
            exact ⟨le_of_not_lt hq, ⟨s, rfl, hp⟩, by simp [handleRestock, hp, hq, restockPatch, hupd]⟩
          | ok db1 =>
            simp [handleRestock, hp, hq, hupd] at hsent
            subst hsent
            exact ⟨le_of_not_lt hq, ⟨s, rfl, hp⟩, by simp [handleRestock, hp, hq, restockPatch, hupd]⟩
  · intro q t
    simp [applySweetPatch, restockPatch]

/-- Witness for C8 (amended), at the input `" 12kg"`: the value sent
is the parsed 12 and the final state is the one the absolute update
produces. -/
theorem restock_validation_witness :
    0 ≤ (12 : Int) ∧
    (∃ s, (some " 12kg" : Option String) = some s ∧ parseIntJS s = some 12) ∧
    (handleRestock db0 1 10 (some " 12kg")).2.2 =
      (match updateSweets db0 1 10 (restockPatch 12) with
       | Except.ok db1 => db1
       | Except.error _ => db0) :=
  (restock_validation db0 1 10 (some " 12kg")).2.1 12 (by decide)

/-- C9: under the interleaving in which both purchase flows perform
their quantity read (step 1) before either performs its writes, both
attempts on the last unit of `sweetA` (quantity 1) succeed: both read
quantity 1, two Purchase rows are inserted, both stock updates write
the same stale `1 - 1`, and the final quantity is 0 — the two
purchases together decrement the stock by only 1. -/
theorem oversell_interleaving :
    findSweet db9 1 10 = some sweetA ∧ sweetA.quantity = 1 ∧
    findSweet db9 3 10 = findSweet db9 1 10 ∧
    interleavedPurchases db9 1 3 10 349 =
      some { db9 with
        sweets := [{ sweetA with quantity := 0 }]
        purchases := [⟨1, 10, 1, 349⟩, ⟨3, 10, 1, 349⟩] } := by
  decide

/-- Success of a direct `purchases` insert, as a Boolean condition. -/
theorem insertPurchases_isOk (db : DB) (uid : Nat) (p : PurchaseRow) :
    writeOk (insertPurchases db uid p) =
      (purchases_insert_policy uid p && purchaseCheck p
        && db.users.contains p.user_id
        && db.sweets.any (fun s => s.id == p.sweet_id)) := by
  unfold insertPurchases
  by_cases h : (purchases_insert_policy uid p && purchaseCheck p
      && db.users.contains p.user_id
      && db.sweets.any (fun s => s.id == p.sweet_id)) = true
  · rw [if_pos h, h]
    rfl
  · rw [if_neg h]
    simp only [Bool.not_eq_true] at h
    rw [h]
    rfl

/-- C10: the `purchases` INSERT policy depends only on whether the
caller is the submitted buyer: it is the same decision for any two
rows with the same buyer; full insert success is unchanged across any
positive quantity and any total price, and across any value of the
product's stored stock; and a successful direct insert never touches
the `sweets` table. -/
theorem purchases_policy_uniform (db : DB) (uid : Nat) (p1 p2 : PurchaseRow)
    (hbuyer : p1.user_id = p2.user_id) :
    purchases_insert_policy uid p1 = purchases_insert_policy uid p2 ∧
    (0 < p1.quantity → 0 < p2.quantity → p1.sweet_id = p2.sweet_id →
      writeOk (insertPurchases db uid p1) = writeOk (insertPurchases db uid p2)) ∧
    (∀ sid q, writeOk (insertPurchases (setSweetQuantity db sid q) uid p1) =
      writeOk (insertPurchases db uid p1)) ∧
    (∀ db', insertPurchases db uid p1 = Except.ok db' → db'.sweets = db.sweets) := by
  refine ⟨?_, ?_, ?_, ?_⟩
  · simp [purchases_insert_policy, hbuyer]
  · intro hq1 hq2 hsid
    rw [insertPurchases_isOk, insertPurchases_isOk]
    simp [purchases_insert_policy, purchaseCheck, hbuyer, hsid,
      decide_eq_true hq1, decide_eq_true hq2]
  · intro sid q
    have hids : (db.sweets.map
        (fun s => if s.id == sid then { s with quantity := q } else s)).any
        (fun s => s.id == p1.sweet_id) =
        db.sweets.any (fun s => s.id == p1.sweet_id) := by
      induction db.sweets with
      | nil => rfl
      | cons a l ih =>
        simp only [List.map_cons, List.any_cons, ih]
        by_cases ha : (a.id == sid) = true
        · simp [ha]
        · simp [ha]
    have hu : (setSweetQuantity db sid q).users = db.users := rfl
    have hs : (setSweetQuantity db sid q).sweets =
        db.sweets.map (fun s => if s.id == sid then { s with quantity := q } else s) :=
      rfl
    rw [insertPurchases_isOk, insertPurchases_isOk, hu, hs, hids]
  · intro db' h
    rw [insertPurchases_ok h]

/-- Witness for C10: two rows by buyer 2 differing in quantity (1
vs. 5) and total price (349 vs. 0) get the same policy decision and
the same insert success, which is also unchanged when the stored stock
of sweet 10 is set to 0. -/
theorem purchases_policy_uniform_witness :
    purchases_insert_policy 2 ⟨2, 10, 1, 349⟩ = purchases_insert_policy 2 ⟨2, 10, 5, 0⟩ ∧
    writeOk (insertPurchases db0 2 ⟨2, 10, 1, 349⟩) =
      writeOk (insertPurchases db0 2 ⟨2, 10, 5, 0⟩) ∧
    writeOk (insertPurchases (setSweetQuantity db0 10 0) 2 ⟨2, 10, 1, 349⟩) =
      writeOk (insertPurchases db0 2 ⟨2, 10, 1, 349⟩) := by
  have h := purchases_policy_uniform db0 2 ⟨2, 10, 1, 349⟩ ⟨2, 10, 5, 0⟩ rfl
  exact ⟨h.1, h.2.1 (by decide) (by decide) rfl, h.2.2.1 10 0⟩

end KataSweet
